import Mathlib

/-!
Verification of the natural-language specification of the `regex-le`
fixture repository against its single source file `src/sample/app.py`.

The file is a Python module used as fixture data for a regex-based code
scanner.  We embed the module as an abstract syntax tree (mirroring the
Python AST of the file, constructor by constructor), define the syntactic
collectors the spec's claims talk about (top-level function and class
names, string literals, name references, attribute writes), a small
semantics for executing the module's top-level statements, and direct
shallow embeddings of the two functions with actual behaviour
(`calculate_total` and `UserManager`'s constructor / `get_name`).
-/

namespace RegexLE

/-- Python expressions, restricted to the forms occurring in `app.py`.
An f-string `f"a{e1}b{e2}c"` is `fstr [a, b, c] [e1, e2]`: the literal
text pieces and the interpolated expressions. A generator expression
`elt for v in iter` is `gen elt v iter`. -/
inductive Expr where
  | name    (s : String)
  | strLit  (s : String)
  | intLit  (n : Int)
  | attr    (e : Expr) (field : String)
  | call    (f : Expr) (args : List Expr)
  | fstr    (texts : List String) (exprs : List Expr)
  | listLit (elems : List Expr)
  | dictLit (entries : List (Expr × Expr))
  | gen     (elt : Expr) (var : String) (iter : Expr)
  | awaitE  (e : Expr)
deriving Repr

/-- Python statements, restricted to the forms occurring in `app.py`.
`importStmt m` is `import m`; `fromImport m ns` is `from m import ns`;
`funcDef` carries the name, parameter list, whether it is `async def`,
the docstring and the body; `setAttr obj field e` is `obj.field = e`;
`asyncWith ctx v body` is `async with ctx as v: body`. -/
inductive Stmt where
  | importStmt (modName : String)
  | fromImport (modName : String) (names : List String)
  | funcDef    (fname : String) (params : List String) (isAsync : Bool)
               (docstring : Option String) (body : List Stmt)
  | classDef   (cname : String) (docstring : Option String) (body : List Stmt)
  | assign     (target : String) (e : Expr)
  | setAttr    (obj : Expr) (field : String) (e : Expr)
  | ret        (e : Expr)
  | asyncWith  (ctx : Expr) (var : String) (body : List Stmt)
  | pass
deriving Repr

/-- The module `src/sample/app.py`, statement by statement in source
order.  Comments are not statements; raw-string regex literals keep
their backslashes (`\x7b` and `\x7d` denote the brace characters of the
character-count bound in `email_pattern`). -/
def appModule : List Stmt :=
  [ .importStmt "os",
    .importStmt "json",
    .fromImport "typing" ["List", "Dict", "Optional"],
    .fromImport "datetime" ["datetime"],
    .funcDef "calculate_total" ["items"] false
      (some "Calculate total price of items.")
      [ .ret (.call (.name "sum")
          [.gen (.attr (.name "item") "price") "item" (.name "items")]) ],
    .funcDef "process_user_data" ["user_id"] false
      (some "Process user data from API.")
      [ .assign "response"
          (.call (.attr (.name "requests") "get")
            [.fstr ["/api/users/", ""] [.name "user_id"]]),
        .ret (.call (.attr (.name "response") "json") []) ],
    .funcDef "fetch_data" ["url"] true
      (some "Async function to fetch data.")
      [ .asyncWith (.call (.attr (.name "aiohttp") "ClientSession") []) "session"
          [ .asyncWith (.call (.attr (.name "session") "get") [.name "url"]) "response"
              [ .ret (.awaitE (.call (.attr (.name "response") "text") [])) ] ] ],
    .classDef "UserManager" (some "Manages user operations.")
      [ .funcDef "__init__" ["self", "name", "email"] false none
          [ .setAttr (.name "self") "name" (.name "name"),
            .setAttr (.name "self") "email" (.name "email"),
            .setAttr (.name "self") "created_at"
              (.call (.attr (.name "datetime") "now") []) ],
        .funcDef "get_name" ["self"] false (some "Get user name.")
          [ .ret (.attr (.name "self") "name") ] ],
    .classDef "DatabaseConnection" (some "Handles database connections.")
      [ .funcDef "connect" ["self"] false (some "Connect to database.")
          [ .pass ] ],
    .assign "welcome_message" (.strLit "Welcome to the application"),
    .assign "api_url" (.strLit "https://api.example.com/v1"),
    .assign "template" (.fstr ["Hello, ", "!"] [.name "name"]),
    .assign "MAX_USERS" (.intLit 1000),
    .assign "api_version" (.strLit "2.0.1"),
    .assign "user_ids"
      (.listLit [.intLit 101, .intLit 102, .intLit 103, .intLit 204, .intLit 305]),
    .assign "email_pattern"
      (.strLit "\\b[A-Za-z0-9._%+-]+@[A-Za-z0-9.-]+\\.[A-Z|a-z]\x7b2,\x7d\\b"),
    .assign "phone_pattern" (.strLit "^\\+?[\\d\\s\\-\\(\\)]+$"),
    .assign "config"
      (.dictLit
        [ (.strLit "static_path", .strLit "./static"),
          (.strLit "asset_path", .strLit "/assets/images"),
          (.strLit "data_path", .strLit "../data/records.json") ]) ]

/-- Names of the functions defined by `def` / `async def` at the top
level of a module (methods inside `class` bodies are not top-level). -/
def topLevelFunctionNames (m : List Stmt) : List String :=
  m.filterMap fun s =>
    match s with
    | .funcDef fname _ _ _ _ => some fname
    | _ => none

/-- Names of the classes defined at the top level of a module. -/
def topLevelClassNames (m : List Stmt) : List String :=
  m.filterMap fun s =>
    match s with
    | .classDef cname _ _ => some cname
    | _ => none

mutual
/-- All plain (non-f-string) string literals occurring in an expression,
in source order. -/
def exprStrings : Expr → List String
  | .name _ => []
  | .strLit s => [s]
  | .intLit _ => []
  | .attr e _ => exprStrings e
  | .call f args => exprStrings f ++ exprListStrings args
  | .fstr _ es => exprListStrings es
  | .listLit es => exprListStrings es
  | .dictLit ps => pairListStrings ps
  | .gen elt _ iter => exprStrings elt ++ exprStrings iter
  | .awaitE e => exprStrings e

def exprListStrings : List Expr → List String
  | [] => []
  | e :: es => exprStrings e ++ exprListStrings es

def pairListStrings : List (Expr × Expr) → List String
  | [] => []
  | (k, v) :: ps => exprStrings k ++ exprStrings v ++ pairListStrings ps
end

mutual
/-- All plain string literals occurring in a statement (docstrings
included, since a docstring is a string literal in the file's text). -/
def stmtStrings : Stmt → List String
  | .importStmt _ => []
  | .fromImport _ _ => []
  | .funcDef _ _ _ doc body => doc.toList ++ stmtListStrings body
  | .classDef _ doc body => doc.toList ++ stmtListStrings body
  | .assign _ e => exprStrings e
  | .setAttr obj _ e => exprStrings obj ++ exprStrings e
  | .ret e => exprStrings e
  | .asyncWith ctx _ body => exprStrings ctx ++ stmtListStrings body
  | .pass => []

def stmtListStrings : List Stmt → List String
  | [] => []
  | s :: rest => stmtStrings s ++ stmtListStrings rest
end

/-- All plain string literals of a module. -/
def moduleStrings (m : List Stmt) : List String :=
  stmtListStrings m

mutual
/-- All name references occurring in an expression.  A generator
expression binds its loop variable, so its occurrences inside the
element expression are not references to an outer name. -/
def exprRefs : Expr → List String
  | .name s => [s]
  | .strLit _ => []
  | .intLit _ => []
  | .attr e _ => exprRefs e
  | .call f args => exprRefs f ++ exprListRefs args
  | .fstr _ es => exprListRefs es
  | .listLit es => exprListRefs es
  | .dictLit ps => pairListRefs ps
  | .gen elt v iter => (exprRefs elt).filter (fun n => n ≠ v) ++ exprRefs iter
  | .awaitE e => exprRefs e

def exprListRefs : List Expr → List String
  | [] => []
  | e :: es => exprRefs e ++ exprListRefs es

def pairListRefs : List (Expr × Expr) → List String
  | [] => []
  | (k, v) :: ps => exprRefs k ++ exprRefs v ++ pairListRefs ps
end

mutual
/-- All name references occurring anywhere in a statement, including
inside nested function and class bodies.  Defined names and assignment
targets bind rather than reference, so they are not collected. -/
def stmtRefs : Stmt → List String
  | .importStmt _ => []
  | .fromImport _ _ => []
  | .funcDef _ _ _ _ body => stmtListRefs body
  | .classDef _ _ body => stmtListRefs body
  | .assign _ e => exprRefs e
  | .setAttr obj _ e => exprRefs obj ++ exprRefs e
  | .ret e => exprRefs e
  | .asyncWith ctx _ body => exprRefs ctx ++ stmtListRefs body
  | .pass => []

def stmtListRefs : List Stmt → List String
  | [] => []
  | s :: rest => stmtRefs s ++ stmtListRefs rest
end

mutual
/-- Names bound by a statement in the scope enclosing it: imports bind
the imported names, `def` and `class` bind their name, an assignment
binds its target, `async with ... as v` binds `v` (and whatever its
body binds). -/
def stmtBinds : Stmt → List String
  | .importStmt modName => [modName]
  | .fromImport _ names => names
  | .funcDef fname _ _ _ _ => [fname]
  | .classDef cname _ _ => [cname]
  | .assign target _ => [target]
  | .setAttr _ _ _ => []
  | .ret _ => []
  | .asyncWith _ v body => v :: stmtListBinds body
  | .pass => []

def stmtListBinds : List Stmt → List String
  | [] => []
  | s :: rest => stmtBinds s ++ stmtListBinds rest
end

/-- All names bound at the top level of a module. -/
def moduleBinds (m : List Stmt) : List String :=
  stmtListBinds m

/-- The Python builtins referenced by `app.py` (only `sum` is used). -/
def pyBuiltins : List String := ["sum"]

/-- A function definition together with the context needed to analyse
it: its name, parameters, async flag and body. -/
structure FuncInfo where
  fname : String
  params : List String
  isAsync : Bool
  body : List Stmt
deriving Repr

mutual
/-- Every function definition in a statement, top-level or nested in a
class (or function) body, in source order. -/
def stmtFuncs : Stmt → List FuncInfo
  | .funcDef fname params isAsync _ body =>
      ⟨fname, params, isAsync, body⟩ :: stmtListFuncs body
  | .classDef _ _ body => stmtListFuncs body
  | .asyncWith _ _ body => stmtListFuncs body
  | _ => []

def stmtListFuncs : List Stmt → List FuncInfo
  | [] => []
  | s :: rest => stmtFuncs s ++ stmtListFuncs rest
end

/-- Every function defined in a module, methods included. -/
def moduleFuncs (m : List Stmt) : List FuncInfo :=
  stmtListFuncs m

/-- Names a function body references that are defined nowhere the body
can see: not among its parameters, not bound locally in the body, not
bound at module top level, and not Python builtins.  Executing the body
would raise `NameError` at the first of these. -/
def externalRefs (m : List Stmt) (f : FuncInfo) : List String :=
  (stmtListRefs f.body).filter fun n =>
    ¬ (n ∈ f.params ∨ n ∈ stmtListBinds f.body ∨
       n ∈ moduleBinds m ∨ n ∈ pyBuiltins)

/-- A body whose only statement (besides the docstring, which is kept
out of the embedded body) is a single `return` of an expression. -/
def isSingleReturn : List Stmt → Bool
  | [.ret _] => true
  | _ => false

/-- A body that is the unimplemented stub `pass`. -/
def isPassStub : List Stmt → Bool
  | [.pass] => true
  | _ => false

/-- The three body shapes the spec asserts every function falls into:
a single trivial `return`, a `pass` stub, or a body referencing a name
that is defined nowhere in the file. -/
def funcShapeOK (m : List Stmt) (f : FuncInfo) : Bool :=
  isSingleReturn f.body || isPassStub f.body || !(externalRefs m f).isEmpty

/-- The methods of the top-level class named `c`, in source order. -/
def classMethods (m : List Stmt) (c : String) : List FuncInfo :=
  (m.filterMap fun s =>
    match s with
    | .classDef cname _ body => if cname = c then some body else none
    | _ => none).flatten |> stmtListFuncs

/-- The instance attributes a method body writes on `self`
(`self.field = e` statements), in source order. -/
def selfAttrWrites (body : List Stmt) : List String :=
  body.filterMap fun s =>
    match s with
    | .setAttr (.name "self") field _ => some field
    | _ => none

mutual
/-- The instance attributes an expression reads off `self`
(`self.field` in read position). -/
def exprSelfReads : Expr → List String
  | .name _ => []
  | .strLit _ => []
  | .intLit _ => []
  | .attr (.name "self") field => [field]
  | .attr e _ => exprSelfReads e
  | .call f args => exprSelfReads f ++ exprListSelfReads args
  | .fstr _ es => exprListSelfReads es
  | .listLit es => exprListSelfReads es
  | .dictLit ps => pairListSelfReads ps
  | .gen elt _ iter => exprSelfReads elt ++ exprSelfReads iter
  | .awaitE e => exprSelfReads e

def exprListSelfReads : List Expr → List String
  | [] => []
  | e :: es => exprSelfReads e ++ exprListSelfReads es

def pairListSelfReads : List (Expr × Expr) → List String
  | [] => []
  | (k, v) :: ps => exprSelfReads k ++ exprSelfReads v ++ pairListSelfReads ps
end

/-- The instance attributes read off `self` anywhere in a method body. -/
def selfAttrReads (body : List Stmt) : List String :=
  (body.map fun s =>
    match s with
    | .assign _ e => exprSelfReads e
    | .setAttr _ _ e => exprSelfReads e
    | .ret e => exprSelfReads e
    | _ => []).flatten

/-- The attribute names present on an instance after running a
constructor body over an instance that starts with no attributes:
each `self.field = e` adds `field` if it is not already present. -/
def attrsAfterRunning (body : List Stmt) : List String :=
  body.foldl (fun attrs s =>
    match s with
    | .setAttr (.name "self") field _ =>
        if field ∈ attrs then attrs else attrs ++ [field]
    | _ => attrs) []

/-- A Python runtime error, as far as executing this module's top level
can produce one: a `NameError` carries the unbound name. -/
inductive PyError where
  | nameError (n : String)
deriving Repr, DecidableEq

/-- The first name an expression references that is not bound in the
environment `env` and is not a builtin — the name a `NameError` would
report — or `none` when evaluation succeeds. -/
def firstUnbound (env : List String) (e : Expr) : Option String :=
  (exprRefs e).find? fun n => ¬ (n ∈ env ∨ n ∈ pyBuiltins)

/-- Execute one module-level statement: imports and `def` / `class`
statements only bind names (function bodies do not run at definition
time), an assignment evaluates its right-hand side, which raises
`NameError` at the first unbound name it references. -/
def execStmt (env : List String) (s : Stmt) : Except PyError (List String) :=
  match s with
  | .importStmt modName => .ok (modName :: env)
  | .fromImport _ names => .ok (names ++ env)
  | .funcDef fname _ _ _ _ => .ok (fname :: env)
  | .classDef cname _ _ => .ok (cname :: env)
  | .assign target e =>
      match firstUnbound env e with
      | some n => .error (.nameError n)
      | none => .ok (target :: env)
  | .setAttr obj _ e =>
      match firstUnbound env obj with
      | some n => .error (.nameError n)
      | none =>
          match firstUnbound env e with
          | some n => .error (.nameError n)
          | none => .ok env
  | .ret e =>
      match firstUnbound env e with
      | some n => .error (.nameError n)
      | none => .ok env
  | .asyncWith ctx v _ =>
      match firstUnbound env ctx with
      | some n => .error (.nameError n)
      | none => .ok (v :: env)
  | .pass => .ok env

/-- Execute a list of module-level statements in order, stopping at the
first error. -/
def execStmts (env : List String) : List Stmt → Except PyError (List String)
  | [] => .ok env
  | s :: rest =>
      match execStmt env s with
      | .error e => .error e
      | .ok env2 => execStmts env2 rest

/-- Execute a module's top level from an empty environment. -/
def execModule (m : List Stmt) : Except PyError (List String) :=
  execStmts [] m

/-- An item as `calculate_total` consumes it: anything carrying a
numeric `price` attribute. -/
structure Item where
  price : Int
deriving Repr, DecidableEq

/-- Python's builtin `sum`: fold addition over the values from the
left, starting from `0`. -/
def pySum (l : List Int) : Int :=
  l.foldl (· + ·) 0

/-- Shallow embedding of `calculate_total` from `app.py`:
`return sum(item.price for item in items)`. -/
def calculate_total (items : List Item) : Int :=
  pySum (items.map fun item => item.price)

/-- Shallow embedding of class `UserManager`: the state built by
`__init__` — its three instance attributes.  `datetime.now()` is
modelled as a clock value supplied to the constructor. -/
structure UserManager where
  name : String
  email : String
  created_at : Nat
deriving Repr, DecidableEq

/-- `UserManager.__init__(self, name, email)`: stores `name`, `email`
and the current time. -/
def UserManager.init (now : Nat) (name email : String) : UserManager :=
  { name := name, email := email, created_at := now }

/-- `UserManager.get_name(self)`: `return self.name`. -/
def UserManager.get_name (self : UserManager) : String :=
  self.name

/-- All name references in a module outside the body of the top-level
class named `c` (the statements of the module with that class
definition removed). -/
def refsOutsideClass (m : List Stmt) (c : String) : List String :=
  stmtListRefs (m.filter fun s =>
    match s with
    | .classDef cname _ _ => cname != c
    | _ => true)

/-- Folding addition from an accumulator equals the accumulator plus
the sum. -/
theorem foldl_add_eq_add_sum (l : List Int) (a : Int) :
    l.foldl (· + ·) a = a + l.sum := by
  induction l generalizing a with
  | nil => simp
  | cons x xs ih => simp [List.foldl_cons, ih, add_assoc]

/-- Python's `sum` agrees with `List.sum`. -/
theorem pySum_eq_sum (l : List Int) : pySum l = l.sum := by
  simpa using foldl_add_eq_add_sum l 0

/-- C1: the sequence of function names defined at the top level of
`app.py`, in source order, is exactly `calculate_total`,
`process_user_data`, `fetch_data`; the file's other function
definitions (`__init__`, `get_name`, `connect`) are methods nested
inside classes, hence not top-level. -/
theorem c1_top_level_function_names :
    topLevelFunctionNames appModule =
      ["calculate_total", "process_user_data", "fetch_data"] ∧
    (moduleFuncs appModule).map FuncInfo.fname =
      ["calculate_total", "process_user_data", "fetch_data",
       "__init__", "get_name", "connect"] :=
  ⟨rfl, rfl⟩

/-- C2: the sequence of class names defined at the top level of
`app.py`, in source order, is exactly `UserManager`,
`DatabaseConnection`. -/
theorem c2_top_level_class_names :
    topLevelClassNames appModule = ["UserManager", "DatabaseConnection"] :=
  rfl

/-- C3: the set of quoted string literals occurring in `app.py`
includes the six strings the spec lists. -/
theorem c3_string_literals_superset :
    "Welcome to the application" ∈ moduleStrings appModule ∧
    "https://api.example.com/v1" ∈ moduleStrings appModule ∧
    "2.0.1" ∈ moduleStrings appModule ∧
    "./static" ∈ moduleStrings appModule ∧
    "/assets/images" ∈ moduleStrings appModule ∧
    "../data/records.json" ∈ moduleStrings appModule := by
  decide

/-- C4 counterexample: it is not the case that every function body in
`app.py` falls into one of the three claimed shapes (single trivial
`return`, `pass` stub, or reference to a name defined nowhere in the
file): the violator is exactly `UserManager.__init__`, whose body
assigns attributes and calls only the imported `datetime`. -/
theorem c4_counterexample :
    (moduleFuncs appModule).all (funcShapeOK appModule) = false ∧
    ((moduleFuncs appModule).filter fun f =>
      !funcShapeOK appModule f).map FuncInfo.fname = ["__init__"] :=
  ⟨rfl, rfl⟩

/-- C4 (amended): every function body in `app.py` except
`UserManager.__init__` falls into one of the three shapes, and the
classification is exactly as the claim assigns it: `calculate_total`
and `get_name` return a single expression, `connect` is a `pass` stub,
`process_user_data` references the undefined name `requests` and
`fetch_data` the undefined name `aiohttp`; `__init__` fits no shape. -/
theorem c4_function_shapes :
    ((moduleFuncs appModule).filter fun f =>
      f.fname != "__init__").all (funcShapeOK appModule) = true ∧
    (moduleFuncs appModule).map
      (fun f => (f.fname, isSingleReturn f.body, isPassStub f.body,
                 externalRefs appModule f)) =
      [("calculate_total", true, false, []),
       ("process_user_data", false, false, ["requests"]),
       ("fetch_data", false, false, ["aiohttp"]),
       ("__init__", false, false, []),
       ("get_name", true, false, []),
       ("connect", false, true, [])] :=
  ⟨rfl, rfl⟩

/-- C5: no expression outside each class's own body mentions
`UserManager` or `DatabaseConnection`: removing a class's definition
from the module leaves no reference to its name. -/
theorem c5_classes_never_referenced :
    "UserManager" ∉ refsOutsideClass appModule "UserManager" ∧
    "DatabaseConnection" ∉ refsOutsideClass appModule "DatabaseConnection" := by
  decide

/-- C6: `fetch_data` is the single function in `app.py` using
asynchronous form, and no statement anywhere in the module references
the name `fetch_data`. -/
theorem c6_fetch_data_no_caller :
    ((moduleFuncs appModule).filter FuncInfo.isAsync).map FuncInfo.fname =
      ["fetch_data"] ∧
    "fetch_data" ∉ stmtListRefs appModule :=
  ⟨rfl, by decide⟩

/-- C7: running `UserManager.__init__` over an instance with no
attributes leaves exactly the attributes `name`, `email`, `created_at`
(in that order); the only other method, `get_name`, writes no
attribute and reads only `name`. -/
theorem c7_user_manager_attributes :
    (classMethods appModule "UserManager").map
      (fun f => (f.fname, attrsAfterRunning f.body, selfAttrWrites f.body,
                 selfAttrReads f.body)) =
      [("__init__", ["name", "email", "created_at"],
        ["name", "email", "created_at"], []),
       ("get_name", [], [], ["name"])] :=
  rfl

/-- C8: `calculate_total` returns the sum of the prices of the items,
and returns `0` on the empty list. -/
theorem c8_calculate_total_sums_prices (items : List Item) :
    calculate_total items = (items.map Item.price).sum ∧
    calculate_total [] = 0 :=
  ⟨pySum_eq_sum _, rfl⟩

/-- C9: constructing a `UserManager` from any name and email (at any
clock time) and then calling `get_name` returns exactly the name. -/
theorem c9_construct_then_read (now : Nat) (n e : String) :
    (UserManager.init now n e).get_name = n :=
  rfl

/-- C10: executing the module's top level raises a `NameError` for the
unbound name `name`; the first eleven statements (the imports, the
three function definitions, the two class definitions,
`welcome_message` and `api_url`) execute without error, and the
twelfth statement — the assignment to `template` of the f-string
interpolating `name` — is where execution fails. -/
theorem c10_module_raises_name_error :
    execModule appModule = .error (.nameError "name") ∧
    execStmts [] (appModule.take 11) =
      .ok ["api_url", "welcome_message", "DatabaseConnection",
           "UserManager", "fetch_data", "process_user_data",
           "calculate_total", "datetime", "List", "Dict", "Optional",
           "json", "os"] ∧
    appModule.get? 11 =
      some (.assign "template" (.fstr ["Hello, ", "!"] [.name "name"])) ∧
    execStmts [] (appModule.take 12) = .error (.nameError "name") :=
  ⟨rfl, rfl, rfl, rfl⟩

end RegexLE
